import Mathlib

/-!
Shallow embedding of the per-asset decision loop of src/puppy/agent.py
(class LLMAgent): ingestion of document payloads into memory tiers,
reflection bookkeeping, mode-dependent action derivation, feedback-driven
reinforcement of consulted memory identifiers, and the checkpoint
save/load state dictionary.  External collaborators (BrainDB, Portfolio,
the reasoning endpoint, the filesystem and pickle) are modelled as an
effect trace plus an environment supplying their responses; read-only
query calls and logging are not part of the trace.  Python exceptions are
modelled as an error field on the step outcome, with the effects already
performed before the raise kept in the trace.
-/

namespace Puppy

/-- A Python value appearing as a document payload in the market-info
tuple: a string, a list of strings, or a dict.  Only emptiness of the
dict matters to the agent code. -/
inductive PyVal where
  | str (s : String)
  | list (l : List String)
  | dict (entries : List (String × String))
deriving DecidableEq

/-- Python comparison v != {} as used in _handling_filings and
_handling_news: only the empty dict is equal to the empty dict; a string
or a list (even an empty list) is never equal to a dict. -/
def pyNeEmptyDict : PyVal → Bool
  | .dict [] => false
  | _ => true

/-- One entry of a tier index list inside a reflection result; the agent
reads the field named memory_index from each entry. -/
structure MemEntry where
  memory_index : String
deriving DecidableEq

/-- The structured result dict returned by trading_reflection and stored
in reflection_result_series_dict.  Each optional field models presence or
absence of the corresponding dict key; extra_keys models any further keys
(relevant only to Python truthiness of the dict). -/
structure ReflectionResult where
  investment_decision : Option String := none
  summary_reason : Option String := none
  short_memory_index : Option (List MemEntry) := none
  middle_memory_index : Option (List MemEntry) := none
  long_memory_index : Option (List MemEntry) := none
  reflection_memory_index : Option (List MemEntry) := none
  extra_keys : List String := []
deriving DecidableEq

/-- Python truthiness of the reflection result dict: nonempty iff some
key is present. -/
def ReflectionResult.truthy (r : ReflectionResult) : Bool :=
  r.investment_decision.isSome || r.summary_reason.isSome ||
  r.short_memory_index.isSome || r.middle_memory_index.isSome ||
  r.long_memory_index.isSome || r.reflection_memory_index.isSome ||
  !r.extra_keys.isEmpty

/-- The run_mode argument of step.  Train and Test are the two enum
members; Other models any further Python value passed in the dynamically
typed argument position. -/
inductive RunMode where
  | Train
  | Test
  | Other (v : String)
deriving DecidableEq

/-- The market_info tuple handed to step:
(cur_date, cur_price, cur_filing_k, cur_filing_q, cur_news, cur_record,
done).  Dates are modelled as natural numbers, prices and realized
records as integers (cur_record is optional: None outside training). -/
structure MarketInfo where
  cur_date : Nat
  cur_price : Int
  filing_k : PyVal
  filing_q : PyVal
  news : List String
  cur_record : Option Int
  done : Bool
deriving DecidableEq

/-- An action dict: direction always present, quantity present only for
train actions. -/
structure TradeAction where
  direction : Int
  quantity : Option Int := none
deriving DecidableEq

/-- Python exceptions raised by the agent code paths modelled here. -/
inductive PyError where
  | keyError (key : String)
  | valueError (msg : String)
  | typeError (msg : String)
deriving DecidableEq

/-- A mutating collaborator call issued by the agent during one step, in
program order.  Read-only calls (queries, get_moment, get_feedback_response)
are supplied by the environment instead. -/
inductive Effect where
  | add_memory_mid (symbol : String) (date : Nat) (text : PyVal)
  | add_memory_long (symbol : String) (date : Nat) (text : PyVal)
  | add_memory_short (symbol : String) (date : Nat) (text : List String)
  | add_memory_reflection (symbol : String) (date : Nat) (text : String)
  | update_market_info (price : Int) (date : Nat)
  | record_action (action : TradeAction)
  | update_portfolio_series
  | update_access_count_with_feed_back (symbol : String) (ids : List String) (feedback : Int)
  | brain_step
deriving DecidableEq

/-- The feedback dict returned by Portfolio.get_feedback_response when
one is pending: a date and a signed magnitude. -/
structure Feedback where
  date : Nat
  feedback : Int
deriving DecidableEq

/-- Collaborator responses consumed during one step: the reflection
result returned by the reasoning endpoint, and the pending feedback
response of the portfolio (none models a falsy response). -/
structure StepEnv where
  reflection_result : ReflectionResult
  feedback : Option Feedback
deriving DecidableEq

/-- Lookup in the date-keyed reflection dict (Python dict indexing). -/
def lookupDate : List (Nat × ReflectionResult) → Nat → Option ReflectionResult
  | [], _ => none
  | (d, r) :: rest, k => if d = k then some r else lookupDate rest k

/-- Assignment self.reflection_result_series_dict[cur_date] = r:
overwrite the entry for the date if present, else append. -/
def upsertDate : List (Nat × ReflectionResult) → Nat → ReflectionResult → List (Nat × ReflectionResult)
  | [], k, v => [(k, v)]
  | (d, r) :: rest, k, v =>
    if d = k then (k, v) :: rest else (d, r) :: upsertDate rest k v

/-- The slice of the Portfolio object relevant to the checkpoint claims:
it is constructed from the symbol and the lookback window size and is
pickled wholesale. -/
structure Portfolio where
  symbol : String
  lookback_window_size : Nat
deriving DecidableEq

/-- The mutable and configuration state of an LLMAgent instance that the
agent code itself reads or writes (the brain is an external collaborator
reached through effects). -/
structure AgentState where
  counter : Nat
  top_k : Nat
  agent_name : String
  trading_symbol : String
  character_string : String
  chat_end_point_name : String
  chat_end_point_config : List (String × String)
  look_back_window_size : Nat
  portfolio : Portfolio
  reflection_result_series_dict : List (Nat × ReflectionResult)
  access_counter : List (String × Int)
deriving DecidableEq

/-- LLMAgent.__init__: counter starts at 1, the portfolio is built from
the trading symbol and the lookback window, and the reflection dict and
access counter start empty. -/
def LLMAgent_init (agent_name trading_symbol character_string : String)
    (top_k : Nat) (chat_end_point_name : String)
    (chat_end_point_config : List (String × String))
    (look_back_window_size : Nat) : AgentState :=
  { counter := 1,
    top_k := top_k,
    agent_name := agent_name,
    trading_symbol := trading_symbol,
    character_string := character_string,
    chat_end_point_name := chat_end_point_name,
    chat_end_point_config := chat_end_point_config,
    look_back_window_size := look_back_window_size,
    portfolio := { symbol := trading_symbol, lookback_window_size := look_back_window_size },
    reflection_result_series_dict := [],
    access_counter := [] }

/-- _handling_filings: write filing_q to mid memory if it is not the
empty dict, then filing_k to long memory if it is not the empty dict. -/
def handling_filings (a : AgentState) (cur_date : Nat) (filing_q filing_k : PyVal) : List Effect :=
  (if pyNeEmptyDict filing_q then
    [Effect.add_memory_mid a.trading_symbol cur_date filing_q] else []) ++
  (if pyNeEmptyDict filing_k then
    [Effect.add_memory_long a.trading_symbol cur_date filing_k] else [])

/-- _handling_news: the guard in the source compares the news list
against the empty dict (news != {}), so it is evaluated on the list
injected into PyVal. -/
def handling_news (a : AgentState) (cur_date : Nat) (news : List String) : List Effect :=
  if pyNeEmptyDict (PyVal.list news) then
    [Effect.add_memory_short a.trading_symbol cur_date news] else []

/-- The id-collection loop of __update_access_counter_sub: walk the tier
index entries in order and append each memory_index not already
collected. -/
def collect_ids_aux (acc : List String) : List MemEntry → List String
  | [] => acc
  | e :: rest =>
    if e.memory_index ∈ acc then collect_ids_aux acc rest
    else collect_ids_aux (acc ++ [e.memory_index]) rest

/-- The deduplicated id list built by __update_access_counter_sub. -/
def collect_ids (entries : List MemEntry) : List String :=
  collect_ids_aux [] entries

/-- __update_access_counter_sub: one call to
brain.update_access_count_with_feed_back with the deduplicated ids and
the feedback magnitude. -/
def update_access_counter_sub (a : AgentState) (entries : List MemEntry) (fb : Feedback) : Effect :=
  Effect.update_access_count_with_feed_back a.trading_symbol (collect_ids entries) fb.feedback

/-- __update_short_memory_access_counter: call the sub update only when
the short_memory_index key is present in the stored result. -/
def update_short_memory_access_counter (a : AgentState) (fb : Feedback)
    (cur_memory : ReflectionResult) : List Effect :=
  match cur_memory.short_memory_index with
  | some entries => [update_access_counter_sub a entries fb]
  | none => []

/-- __update_mid_memory_access_counter: guarded on the
middle_memory_index key. -/
def update_mid_memory_access_counter (a : AgentState) (fb : Feedback)
    (cur_memory : ReflectionResult) : List Effect :=
  match cur_memory.middle_memory_index with
  | some entries => [update_access_counter_sub a entries fb]
  | none => []

/-- __update_long_memory_access_counter: guarded on the
long_memory_index key. -/
def update_long_memory_access_counter (a : AgentState) (fb : Feedback)
    (cur_memory : ReflectionResult) : List Effect :=
  match cur_memory.long_memory_index with
  | some entries => [update_access_counter_sub a entries fb]
  | none => []

/-- __update_reflection_memory_access_counter: guarded on the
reflection_memory_index key. -/
def update_reflection_memory_access_counter (a : AgentState) (fb : Feedback)
    (cur_memory : ReflectionResult) : List Effect :=
  match cur_memory.reflection_memory_index with
  | some entries => [update_access_counter_sub a entries fb]
  | none => []

/-- _update_access_counter: return without calls when no feedback is
pending or the magnitude is zero; otherwise index the reflection dict at
the feedback date (a missing date raises KeyError before any call) and
issue the four per-tier updates in order short, mid, long, reflection. -/
def update_access_counter (a : AgentState) (fb : Option Feedback) : Except PyError (List Effect) :=
  match fb with
  | none => Except.ok []
  | some f =>
    if f.feedback ≠ 0 then
      match lookupDate a.reflection_result_series_dict f.date with
      | none => Except.error (PyError.keyError (toString f.date))
      | some cur_memory =>
        Except.ok (update_short_memory_access_counter a f cur_memory ++
          update_mid_memory_access_counter a f cur_memory ++
          update_long_memory_access_counter a f cur_memory ++
          update_reflection_memory_access_counter a f cur_memory)
    else Except.ok []

/-- _construct_train_actions: direction 1 when the realized record is
positive, else -1; quantity fixed at 1. -/
def construct_train_actions (cur_record : Int) : TradeAction :=
  { direction := if 0 < cur_record then 1 else -1, quantity := some 1 }

/-- __process_test_action: with a truthy result, read the
investment_decision key (KeyError when absent) and map buy to 1, hold to
0, sell to -1, any other label to the fallback 0; a falsy result takes
the fallback directly. -/
def process_test_action (test_reflection_result : ReflectionResult) : Except PyError TradeAction :=
  if test_reflection_result.truthy then
    match test_reflection_result.investment_decision with
    | none => Except.error (PyError.keyError ("investment_decision"))
    | some d =>
      if d = "buy" then Except.ok { direction := 1 }
      else if d = "hold" then Except.ok { direction := 0 }
      else if d = "sell" then Except.ok { direction := -1 }
      else Except.ok { direction := 0 }
  else Except.ok { direction := 0 }

/-- The reflection-tier write of __reflection_on_record: performed when
the result is truthy and carries a summary_reason key. -/
def reflection_on_record_write (a : AgentState) (cur_date : Nat) (r : ReflectionResult) : List Effect :=
  if r.truthy then
    match r.summary_reason with
    | some s => [Effect.add_memory_reflection a.trading_symbol cur_date s]
    | none => []
  else []

/-- The logging statement of _reflect in Test mode indexes the stored
result at the investment_decision key whenever the result is truthy, so
a truthy result without that key raises KeyError inside _reflect (after
the result was stored in the reflection dict). -/
def reflect_log_error (run_mode : RunMode) (r : ReflectionResult) : Option PyError :=
  if run_mode = RunMode.Test ∧ r.truthy = true ∧ r.investment_decision = none then
    some (PyError.keyError ("investment_decision"))
  else none

/-- The observable outcome of one step (or of a phase of it): the agent
state after it, the mutating collaborator calls issued, and the raised
exception when one escapes. -/
structure StepOutcome where
  state : AgentState
  trace : List Effect
  error : Option PyError
deriving DecidableEq

/-- _reflect: write the reflection tier when a rationale is present,
store the result in the date-keyed dict, then log (where the Test-mode
log can raise KeyError). -/
def reflect (a : AgentState) (cur_date : Nat) (run_mode : RunMode)
    (r : ReflectionResult) : StepOutcome :=
  { state :=
      { a with reflection_result_series_dict := upsertDate a.reflection_result_series_dict cur_date r },
    trace := reflection_on_record_write a cur_date r,
    error := reflect_log_error run_mode r }

/-- step: validate run_mode first (ValueError before anything else),
return unchanged on done, then in order run filing handling, news
handling, market update, reflection, action derivation, the portfolio
step, the access-counter update, and the brain maintenance step,
cutting the step short at the first raised exception. -/
def step (a : AgentState) (env : StepEnv) (mi : MarketInfo) (run_mode : RunMode) : StepOutcome :=
  match run_mode with
  | RunMode.Other _ =>
    { state := a, trace := [],
      error := some (PyError.valueError ("run_mode should be either Train or Test")) }
  | _ =>
    if mi.done then { state := a, trace := [], error := none }
    else
      let t1 := handling_filings a mi.cur_date mi.filing_q mi.filing_k
      let t2 := handling_news a mi.cur_date mi.news
      let t3 := [Effect.update_market_info mi.cur_price mi.cur_date]
      let ro := reflect a mi.cur_date run_mode env.reflection_result
      let pre := t1 ++ t2 ++ t3 ++ ro.trace
      match ro.error with
      | some e => { state := ro.state, trace := pre, error := some e }
      | none =>
        let actionRes : Except PyError TradeAction :=
          if run_mode = RunMode.Train then
            match mi.cur_record with
            | some r => Except.ok (construct_train_actions r)
            | none => Except.error (PyError.typeError ("NoneType is not comparable with int"))
          else
            match lookupDate ro.state.reflection_result_series_dict mi.cur_date with
            | some rr => process_test_action rr
            | none => Except.error (PyError.keyError (toString mi.cur_date))
        match actionRes with
        | Except.error e => { state := ro.state, trace := pre, error := some e }
        | Except.ok act =>
          let t5 := [Effect.record_action act, Effect.update_portfolio_series]
          match update_access_counter ro.state env.feedback with
          | Except.error e => { state := ro.state, trace := pre ++ t5, error := some e }
          | Except.ok t6 =>
            { state := ro.state, trace := pre ++ t5 ++ t6 ++ [Effect.brain_step], error := none }

/-- The pickled state_dict of save_checkpoint: exactly the keys written
at lines 439-451 of agent.py.  There is no look_back_window_size key.
Filesystem and pickle mechanics are abstracted away. -/
structure StateDict where
  agent_name : String
  character_string : String
  top_k : Nat
  counter : Nat
  trading_symbol : String
  chat_end_point_name : String
  chat_end_point_config : List (String × String)
  portfolio : Portfolio
  reflection_result_series_dict : List (Nat × ReflectionResult)
  access_counter : List (String × Int)
deriving DecidableEq

/-- save_checkpoint: the state dictionary pickled to disk. -/
def save_checkpoint_state (a : AgentState) : StateDict :=
  { agent_name := a.agent_name,
    character_string := a.character_string,
    top_k := a.top_k,
    counter := a.counter,
    trading_symbol := a.trading_symbol,
    chat_end_point_name := a.chat_end_point_name,
    chat_end_point_config := a.chat_end_point_config,
    portfolio := a.portfolio,
    reflection_result_series_dict := a.reflection_result_series_dict,
    access_counter := a.access_counter }

/-- load_checkpoint: rebuild the agent through __init__ from the saved
scalars -- without passing look_back_window_size, so the __init__
default 7 applies -- then overlay the saved portfolio, reflection dict,
access counter and counter. -/
def load_checkpoint (sd : StateDict) : AgentState :=
  let class_obj := LLMAgent_init sd.agent_name sd.trading_symbol sd.character_string
    sd.top_k sd.chat_end_point_name sd.chat_end_point_config 7
  { class_obj with
    portfolio := sd.portfolio,
    reflection_result_series_dict := sd.reflection_result_series_dict,
    access_counter := sd.access_counter,
    counter := sd.counter }

/-- The actions recorded against the portfolio within a trace. -/
def recordedActions (tr : List Effect) : List TradeAction :=
  tr.filterMap fun e =>
    match e with
    | Effect.record_action act => some act
    | _ => none

/-- The reinforcement calls within a trace, as (ids, magnitude) pairs. -/
def reinforceCalls (tr : List Effect) : List (List String × Int) :=
  tr.filterMap fun e =>
    match e with
    | Effect.update_access_count_with_feed_back _ ids fb => some (ids, fb)
    | _ => none

/-- The payloads of short-tier memory writes within a trace. -/
def shortWrites (tr : List Effect) : List (List String) :=
  tr.filterMap fun e =>
    match e with
    | Effect.add_memory_short _ _ text => some text
    | _ => none

/-- The payloads of mid-tier memory writes within a trace. -/
def midWrites (tr : List Effect) : List PyVal :=
  tr.filterMap fun e =>
    match e with
    | Effect.add_memory_mid _ _ text => some text
    | _ => none

/-- The payloads of long-tier memory writes within a trace. -/
def longWrites (tr : List Effect) : List PyVal :=
  tr.filterMap fun e =>
    match e with
    | Effect.add_memory_long _ _ text => some text
    | _ => none

/-- The decision-label-to-direction mapping as the spec states it: buy
is 1, hold is 0, sell is -1, and an absent or unrecognized label is the
neutral 0.  Used to compare the code path against the specified
mapping. -/
def decisionDirection (r : ReflectionResult) : Int :=
  match r.investment_decision with
  | some d => if d = "buy" then 1 else if d = "hold" then 0 else if d = "sell" then -1 else 0
  | none => 0

/-! Concrete fixtures used by the witness and counterexample theorems. -/

/-- A freshly initialized agent fixture. -/
def agentA : AgentState := LLMAgent_init ("agent") ("AAPL") ("persona") 5 ("openai") [] 7

/-- An environment with an empty (falsy) reflection result and no
pending feedback. -/
def envNone : StepEnv := { reflection_result := {}, feedback := none }

/-- An environment whose pending feedback has magnitude zero. -/
def envZero : StepEnv := { reflection_result := {}, feedback := some { date := 1, feedback := 0 } }

/-- An environment with nonzero feedback for date 3 (never recorded). -/
def envFb3 : StepEnv := { reflection_result := {}, feedback := some { date := 3, feedback := -1 } }

/-- A market info tuple with the done flag set. -/
def miDone : MarketInfo :=
  { cur_date := 1, cur_price := 10, filing_k := PyVal.dict [], filing_q := PyVal.dict [],
    news := [("rate hike")], cur_record := some 2, done := true }

/-- A live (not done) market info tuple for date 1 with empty filings,
one news string and a positive realized record. -/
def miTrain : MarketInfo :=
  { cur_date := 1, cur_price := 10, filing_k := PyVal.dict [], filing_q := PyVal.dict [],
    news := [("rate hike")], cur_record := some 2, done := false }

/-- A nonempty reflection result that carries only a rationale and no
investment_decision key. -/
def resultNoLabel : ReflectionResult := { summary_reason := some ("looks uncertain") }

/-- An environment returning the label-less reflection result. -/
def envNoLabel : StepEnv := { reflection_result := resultNoLabel, feedback := none }

/-- A stored reflection record whose short-tier key is present but holds
an empty entry list: no identifiers were consulted for any tier. -/
def resultEmptyShort : ReflectionResult := { short_memory_index := some [] }

/-- An agent that recorded resultEmptyShort for date 5. -/
def agentEmptyShort : AgentState :=
  { agentA with reflection_result_series_dict := [(5, resultEmptyShort)] }

/-- A stored reflection record with duplicated short-tier identifiers
and one mid-tier identifier. -/
def resultDup : ReflectionResult :=
  { short_memory_index := some [{ memory_index := ("s1") }, { memory_index := ("s1") },
      { memory_index := ("s2") }],
    middle_memory_index := some [{ memory_index := ("m1") }] }

/-- An agent that recorded resultDup for date 5. -/
def agentDup : AgentState :=
  { agentA with reflection_result_series_dict := [(5, resultDup)] }

/-- A stored reflection record consulting the single short identifier s1. -/
def resultS1 : ReflectionResult := { short_memory_index := some [{ memory_index := ("s1") }] }

/-- An agent that recorded resultS1 for date 2. -/
def agentS1 : AgentState :=
  { agentA with reflection_result_series_dict := [(2, resultS1)] }

/-- An environment with nonzero feedback for the recorded date 2. -/
def envFb2 : StepEnv := { reflection_result := {}, feedback := some { date := 2, feedback := -1 } }

/-- A live market info tuple with every payload empty: empty dict
filings and an empty news list. -/
def miEmptyPayloads : MarketInfo :=
  { cur_date := 1, cur_price := 10, filing_k := PyVal.dict [], filing_q := PyVal.dict [],
    news := [], cur_record := some 2, done := false }

/-- A live market info tuple with all three payloads nonempty. -/
def miFullPayloads : MarketInfo :=
  { cur_date := 1, cur_price := 10, filing_k := PyVal.str ("annual report"),
    filing_q := PyVal.str ("quarterly report"), news := [("rate hike")],
    cur_record := some 2, done := false }

/-- An agent configured with a non-default lookback window of 10. -/
def agentLb10 : AgentState := LLMAgent_init ("agent") ("AAPL") ("persona") 5 ("openai") [] 10

/-- A reflection result whose decision label is buy. -/
def resultBuy : ReflectionResult := { investment_decision := some ("buy") }

/-- An environment returning the buy decision. -/
def envBuy : StepEnv := { reflection_result := resultBuy, feedback := none }

/-! Helper lemmas about the embedded operations. -/

theorem collect_ids_aux_mem (entries : List MemEntry) (acc : List String) (x : String) :
    x ∈ collect_ids_aux acc entries ↔ x ∈ acc ∨ x ∈ entries.map MemEntry.memory_index := by
  induction entries generalizing acc with
  | nil => simp [collect_ids_aux]
  | cons e rest ih =>
    by_cases h : e.memory_index ∈ acc
    · rw [collect_ids_aux, if_pos h, ih]
      simp only [List.map_cons, List.mem_cons]
      constructor
      · rintro (hx | hx)
        · exact Or.inl hx
        · exact Or.inr (Or.inr hx)
      · rintro (hx | hx | hx)
        · exact Or.inl hx
        · exact Or.inl (hx ▸ h)
        · exact Or.inr hx
    · rw [collect_ids_aux, if_neg h, ih]
      simp only [List.mem_append, List.mem_singleton, List.map_cons, List.mem_cons]
      tauto

theorem collect_ids_aux_nodup (entries : List MemEntry) (acc : List String) (hacc : acc.Nodup) :
    (collect_ids_aux acc entries).Nodup := by
  induction entries generalizing acc with
  | nil => exact hacc
  | cons e rest ih =>
    by_cases h : e.memory_index ∈ acc
    · rw [collect_ids_aux, if_pos h]
      exact ih acc hacc
    · rw [collect_ids_aux, if_neg h]
      refine ih _ ?_
      rw [List.nodup_append]
      exact ⟨hacc, List.nodup_singleton _, by simpa [List.disjoint_right] using h⟩

/-- Membership in the deduplicated id list agrees with membership in the
raw list of memory_index fields. -/
theorem collect_ids_mem (entries : List MemEntry) (x : String) :
    x ∈ collect_ids entries ↔ x ∈ entries.map MemEntry.memory_index := by
  rw [collect_ids, collect_ids_aux_mem]
  simp

/-- The deduplicated id list has no duplicates. -/
theorem collect_ids_nodup (entries : List MemEntry) : (collect_ids entries).Nodup :=
  collect_ids_aux_nodup entries [] List.nodup_nil

/-- Indexing the reflection dict right after storing a result for the
same date returns that result. -/
theorem lookupDate_upsertDate_self (l : List (Nat × ReflectionResult)) (d : Nat)
    (r : ReflectionResult) : lookupDate (upsertDate l d r) d = some r := by
  induction l with
  | nil => simp [upsertDate, lookupDate]
  | cons p rest ih =>
    by_cases h : p.1 = d
    · simp [upsertDate, lookupDate, h]
    · simp [upsertDate, lookupDate, h, ih]

theorem recordedActions_append (l1 l2 : List Effect) :
    recordedActions (l1 ++ l2) = recordedActions l1 ++ recordedActions l2 := by
  simp [recordedActions]

theorem reinforceCalls_append (l1 l2 : List Effect) :
    reinforceCalls (l1 ++ l2) = reinforceCalls l1 ++ reinforceCalls l2 := by
  simp [reinforceCalls]

theorem recordedActions_handling_filings (a : AgentState) (d : Nat) (q k : PyVal) :
    recordedActions (handling_filings a d q k) = [] := by
  unfold handling_filings
  cases pyNeEmptyDict q <;> cases pyNeEmptyDict k <;> simp [recordedActions]

theorem recordedActions_handling_news (a : AgentState) (d : Nat) (news : List String) :
    recordedActions (handling_news a d news) = [] := by
  unfold handling_news
  cases pyNeEmptyDict (PyVal.list news) <;> simp [recordedActions]

theorem recordedActions_reflection_write (a : AgentState) (d : Nat) (r : ReflectionResult) :
    recordedActions (reflection_on_record_write a d r) = [] := by
  unfold reflection_on_record_write
  cases r.truthy <;> cases r.summary_reason <;> simp [recordedActions]

theorem reinforceCalls_handling_filings (a : AgentState) (d : Nat) (q k : PyVal) :
    reinforceCalls (handling_filings a d q k) = [] := by
  unfold handling_filings
  cases pyNeEmptyDict q <;> cases pyNeEmptyDict k <;> simp [reinforceCalls]

theorem reinforceCalls_handling_news (a : AgentState) (d : Nat) (news : List String) :
    reinforceCalls (handling_news a d news) = [] := by
  unfold handling_news
  cases pyNeEmptyDict (PyVal.list news) <;> simp [reinforceCalls]

theorem reinforceCalls_reflection_write (a : AgentState) (d : Nat) (r : ReflectionResult) :
    reinforceCalls (reflection_on_record_write a d r) = [] := by
  unfold reflection_on_record_write
  cases r.truthy <;> cases r.summary_reason <;> simp [reinforceCalls]

theorem reinforceCalls_update_short (a : AgentState) (f : Feedback) (m : ReflectionResult) :
    reinforceCalls (update_short_memory_access_counter a f m) =
      (m.short_memory_index.map fun es => (collect_ids es, f.feedback)).toList := by
  unfold update_short_memory_access_counter
  cases m.short_memory_index <;> simp [update_access_counter_sub, reinforceCalls]

theorem reinforceCalls_update_mid (a : AgentState) (f : Feedback) (m : ReflectionResult) :
    reinforceCalls (update_mid_memory_access_counter a f m) =
      (m.middle_memory_index.map fun es => (collect_ids es, f.feedback)).toList := by
  unfold update_mid_memory_access_counter
  cases m.middle_memory_index <;> simp [update_access_counter_sub, reinforceCalls]

theorem reinforceCalls_update_long (a : AgentState) (f : Feedback) (m : ReflectionResult) :
    reinforceCalls (update_long_memory_access_counter a f m) =
      (m.long_memory_index.map fun es => (collect_ids es, f.feedback)).toList := by
  unfold update_long_memory_access_counter
  cases m.long_memory_index <;> simp [update_access_counter_sub, reinforceCalls]

theorem reinforceCalls_update_reflection (a : AgentState) (f : Feedback) (m : ReflectionResult) :
    reinforceCalls (update_reflection_memory_access_counter a f m) =
      (m.reflection_memory_index.map fun es => (collect_ids es, f.feedback)).toList := by
  unfold update_reflection_memory_access_counter
  cases m.reflection_memory_index <;> simp [update_access_counter_sub, reinforceCalls]

theorem recordedActions_update_short (a : AgentState) (f : Feedback) (m : ReflectionResult) :
    recordedActions (update_short_memory_access_counter a f m) = [] := by
  unfold update_short_memory_access_counter
  cases m.short_memory_index <;> simp [update_access_counter_sub, recordedActions]

theorem recordedActions_update_mid (a : AgentState) (f : Feedback) (m : ReflectionResult) :
    recordedActions (update_mid_memory_access_counter a f m) = [] := by
  unfold update_mid_memory_access_counter
  cases m.middle_memory_index <;> simp [update_access_counter_sub, recordedActions]

theorem recordedActions_update_long (a : AgentState) (f : Feedback) (m : ReflectionResult) :
    recordedActions (update_long_memory_access_counter a f m) = [] := by
  unfold update_long_memory_access_counter
  cases m.long_memory_index <;> simp [update_access_counter_sub, recordedActions]

theorem recordedActions_update_reflection (a : AgentState) (f : Feedback) (m : ReflectionResult) :
    recordedActions (update_reflection_memory_access_counter a f m) = [] := by
  unfold update_reflection_memory_access_counter
  cases m.reflection_memory_index <;> simp [update_access_counter_sub, recordedActions]

/-- A successful access-counter update produces only reinforcement
calls: no portfolio actions hide in its trace. -/
theorem recordedActions_update_access_counter (a : AgentState) (fb : Option Feedback)
    (tr : List Effect) (h : update_access_counter a fb = Except.ok tr) :
    recordedActions tr = [] := by
  cases fb with
  | none =>
    simp [update_access_counter] at h
    simp [h, recordedActions]
  | some f =>
    by_cases hf : f.feedback = 0
    · simp [update_access_counter, hf] at h
      simp [h, recordedActions]
    · rw [update_access_counter] at h
      simp only [ne_eq, hf, not_false_iff, if_true] at h
      cases hl : lookupDate a.reflection_result_series_dict f.date with
      | none => rw [hl] at h; exact absurd h (by simp)
      | some m =>
        rw [hl] at h
        have htr := (Except.ok.injEq _ _).mp h
        rw [← htr, recordedActions_append, recordedActions_append, recordedActions_append,
          recordedActions_update_short, recordedActions_update_mid,
          recordedActions_update_long, recordedActions_update_reflection]
        rfl

theorem update_short_fields (a b : AgentState) (hsym : a.trading_symbol = b.trading_symbol)
    (f : Feedback) (m : ReflectionResult) :
    update_short_memory_access_counter a f m = update_short_memory_access_counter b f m := by
  unfold update_short_memory_access_counter
  cases m.short_memory_index <;> simp [update_access_counter_sub, hsym]

theorem update_mid_fields (a b : AgentState) (hsym : a.trading_symbol = b.trading_symbol)
    (f : Feedback) (m : ReflectionResult) :
    update_mid_memory_access_counter a f m = update_mid_memory_access_counter b f m := by
  unfold update_mid_memory_access_counter
  cases m.middle_memory_index <;> simp [update_access_counter_sub, hsym]

theorem update_long_fields (a b : AgentState) (hsym : a.trading_symbol = b.trading_symbol)
    (f : Feedback) (m : ReflectionResult) :
    update_long_memory_access_counter a f m = update_long_memory_access_counter b f m := by
  unfold update_long_memory_access_counter
  cases m.long_memory_index <;> simp [update_access_counter_sub, hsym]

theorem update_reflection_fields (a b : AgentState) (hsym : a.trading_symbol = b.trading_symbol)
    (f : Feedback) (m : ReflectionResult) :
    update_reflection_memory_access_counter a f m = update_reflection_memory_access_counter b f m := by
  unfold update_reflection_memory_access_counter
  cases m.reflection_memory_index <;> simp [update_access_counter_sub, hsym]

/-- The access-counter update reads the agent state only through the
trading symbol and the reflection dict. -/
theorem update_access_counter_fields (a b : AgentState)
    (hsym : a.trading_symbol = b.trading_symbol)
    (hdict : a.reflection_result_series_dict = b.reflection_result_series_dict)
    (fb : Option Feedback) :
    update_access_counter a fb = update_access_counter b fb := by
  cases fb with
  | none => rfl
  | some f =>
    unfold update_access_counter
    rw [hdict]
    by_cases hf : f.feedback = 0
    · simp [hf]
    · simp only [ne_eq, hf, not_false_iff, if_true]
      cases lookupDate b.reflection_result_series_dict f.date with
      | none => rfl
      | some m =>
        simp only [update_short_fields a b hsym f m, update_mid_fields a b hsym f m,
          update_long_fields a b hsym f m, update_reflection_fields a b hsym f m]

theorem step_fields (a b : AgentState)
    (hsym : a.trading_symbol = b.trading_symbol)
    (hdict : a.reflection_result_series_dict = b.reflection_result_series_dict)
    (env : StepEnv) (mi : MarketInfo) (rm : RunMode) :
    (step a env mi rm).trace = (step b env mi rm).trace ∧
    (step a env mi rm).error = (step b env mi rm).error ∧
    (step a env mi rm).state.reflection_result_series_dict =
      (step b env mi rm).state.reflection_result_series_dict := by
  have hf : handling_filings a mi.cur_date mi.filing_q mi.filing_k =
      handling_filings b mi.cur_date mi.filing_q mi.filing_k := by
    unfold handling_filings; rw [hsym]
  have hn : handling_news a mi.cur_date mi.news = handling_news b mi.cur_date mi.news := by
    unfold handling_news; rw [hsym]
  have hw : reflection_on_record_write a mi.cur_date env.reflection_result =
      reflection_on_record_write b mi.cur_date env.reflection_result := by
    unfold reflection_on_record_write; rw [hsym]
  have hau2 : update_access_counter
      { a with reflection_result_series_dict :=
          upsertDate b.reflection_result_series_dict mi.cur_date env.reflection_result }
      env.feedback = update_access_counter
      { b with reflection_result_series_dict :=
          upsertDate b.reflection_result_series_dict mi.cur_date env.reflection_result }
      env.feedback :=
    update_access_counter_fields
      { a with reflection_result_series_dict :=
          upsertDate b.reflection_result_series_dict mi.cur_date env.reflection_result }
      { b with reflection_result_series_dict :=
          upsertDate b.reflection_result_series_dict mi.cur_date env.reflection_result }
      hsym rfl env.feedback
  cases rm with
  | Other v => simp [step, hdict]
  | Train =>
    by_cases hd : mi.done
    · simp [step, hd, hdict]
    · simp only [step, hd, Bool.false_eq_true, if_false, reflect, hf, hn, hw, hdict,
        reduceIte, hau2]
      generalize reflect_log_error RunMode.Train env.reflection_result = rle
      cases rle with
      | some e => exact ⟨rfl, rfl, rfl⟩
      | none =>
        cases mi.cur_record with
        | none => exact ⟨rfl, rfl, rfl⟩
        | some r =>
          generalize update_access_counter
              { b with reflection_result_series_dict :=
                  upsertDate b.reflection_result_series_dict mi.cur_date env.reflection_result }
              env.feedback = uac
          cases uac with
          | error e => exact ⟨rfl, rfl, rfl⟩
          | ok t6 => exact ⟨rfl, rfl, rfl⟩
  | Test =>
    by_cases hd : mi.done
    · simp [step, hd, hdict]
    · simp only [step, hd, Bool.false_eq_true, if_false, reflect, hf, hn, hw, hdict,
        reduceIte, reduceCtorEq, hau2]
      generalize reflect_log_error RunMode.Test env.reflection_result = rle
      cases rle with
      | some e => exact ⟨rfl, rfl, rfl⟩
      | none =>
        generalize lookupDate (upsertDate b.reflection_result_series_dict mi.cur_date
            env.reflection_result) mi.cur_date = lk
        cases lk with
        | none => exact ⟨rfl, rfl, rfl⟩
        | some rr =>
          simp only []
          generalize process_test_action rr = pta
          cases pta with
          | error e => exact ⟨rfl, rfl, rfl⟩
          | ok act =>
            generalize update_access_counter
                { b with reflection_result_series_dict :=
                    upsertDate b.reflection_result_series_dict mi.cur_date env.reflection_result }
                env.feedback = uac
            cases uac with
            | error e => exact ⟨rfl, rfl, rfl⟩
            | ok t6 => exact ⟨rfl, rfl, rfl⟩

/-- Saving and reloading a checkpoint reproduces the agent state except
that the lookback window attribute falls back to the __init__ default,
since it is absent from the saved state dictionary. -/
theorem load_save_eq (a : AgentState) :
    load_checkpoint (save_checkpoint_state a) = { a with look_back_window_size := 7 } := by
  cases a
  rfl

/-- When a truthy result always carries the decision key,
process_test_action succeeds and yields exactly the direction the spec
maps the label to, with no quantity. -/
theorem process_test_action_eq (r : ReflectionResult)
    (h : r.truthy = true → r.investment_decision.isSome) :
    process_test_action r = Except.ok { direction := decisionDirection r, quantity := none } := by
  unfold process_test_action decisionDirection
  cases hd : r.investment_decision with
  | none =>
    cases ht : r.truthy with
    | false => simp [ht]
    | true => exact absurd (h ht) (by simp [hd])
  | some d =>
    have ht : r.truthy = true := by
      unfold ReflectionResult.truthy
      simp [hd]
    by_cases h1 : d = "buy"
    · simp [ht, hd, h1]
    · by_cases h2 : d = "hold"
      · simp [ht, hd, h1, h2]
      · by_cases h3 : d = "sell"
        · simp [ht, hd, h1, h2, h3]
        · simp [ht, hd, h1, h2, h3]

/-- The state coming out of a step is either the input state or the
input state with the reflection dict extended at the current date. -/
theorem step_state_shape (a : AgentState) (env : StepEnv) (mi : MarketInfo) (rm : RunMode) :
    (step a env mi rm).state = a ∨
    (step a env mi rm).state =
      { a with reflection_result_series_dict :=
          upsertDate a.reflection_result_series_dict mi.cur_date env.reflection_result } := by
  cases rm with
  | Other v => exact Or.inl rfl
  | Train =>
    by_cases hd : mi.done
    · simp [step, hd]
    · simp only [step, hd, Bool.false_eq_true, if_false, reflect, reduceIte]
      generalize reflect_log_error RunMode.Train env.reflection_result = rle
      cases rle with
      | some e => exact Or.inr rfl
      | none =>
        cases mi.cur_record with
        | none => exact Or.inr rfl
        | some r =>
          generalize update_access_counter
              { a with reflection_result_series_dict :=
                  upsertDate a.reflection_result_series_dict mi.cur_date env.reflection_result }
              env.feedback = uac
          cases uac with
          | error e => exact Or.inr rfl
          | ok t6 => exact Or.inr rfl
  | Test =>
    by_cases hd : mi.done
    · simp [step, hd]
    · simp only [step, hd, Bool.false_eq_true, if_false, reflect, reduceIte, reduceCtorEq]
      generalize reflect_log_error RunMode.Test env.reflection_result = rle
      cases rle with
      | some e => exact Or.inr rfl
      | none =>
        generalize lookupDate (upsertDate a.reflection_result_series_dict mi.cur_date
            env.reflection_result) mi.cur_date = lk
        cases lk with
        | none => exact Or.inr rfl
        | some rr =>
          simp only []
          generalize process_test_action rr = pta
          cases pta with
          | error e => exact Or.inr rfl
          | ok act =>
            generalize update_access_counter
                { a with reflection_result_series_dict :=
                    upsertDate a.reflection_result_series_dict mi.cur_date env.reflection_result }
                env.feedback = uac
            cases uac with
            | error e => exact Or.inr rfl
            | ok t6 => exact Or.inr rfl

/-! Claim theorems. -/

/-- Claim C8: when the done flag is set and the run mode is valid, the
step performs no collaborator mutation and no state change whatsoever:
the agent state is returned unchanged, the effect trace is empty, and no
error is raised, so repeating it is idempotent. -/
theorem C8_done_step_is_noop (a : AgentState) (env : StepEnv) (mi : MarketInfo)
    (rm : RunMode) (hmode : rm = RunMode.Train ∨ rm = RunMode.Test)
    (hdone : mi.done = true) :
    step a env mi rm = { state := a, trace := [], error := none } := by
  rcases hmode with h | h <;> subst h <;> simp [step, hdone]

theorem C8_done_step_is_noop_witness :
    (RunMode.Train = RunMode.Train ∨ RunMode.Train = RunMode.Test) ∧ miDone.done = true ∧
    step agentA envNone miDone RunMode.Train = { state := agentA, trace := [], error := none } :=
  ⟨Or.inl rfl, rfl, C8_done_step_is_noop agentA envNone miDone RunMode.Train (Or.inl rfl) rfl⟩

/-- Claim C10: calling step with a run mode other than Train or Test
raises the configuration ValueError before the done flag is examined and
before any collaborator call or state change: the outcome is an error
with an empty trace and an unchanged state for every market info,
including one whose done flag is set. -/
theorem C10_invalid_mode_fails_first (a : AgentState) (env : StepEnv) (mi : MarketInfo)
    (v : String) :
    step a env mi (RunMode.Other v) =
      { state := a, trace := [],
        error := some (PyError.valueError ("run_mode should be either Train or Test")) } := by
  simp [step]

/-- Claim C9 (code evaluation at the failing input): with every payload
empty -- empty dict filings and an empty news list -- the step still
issues a short-tier write carrying the empty list, because the source
guards the news write with a comparison of a list against the empty
dict, which never fails for a list; the filing guards do skip the empty
dict.  With all payloads nonempty, each is routed to exactly its own
tier: quarterly to mid, annual to long, news to short. -/
theorem C9_empty_news_is_still_written :
    shortWrites (step agentA envNone miEmptyPayloads RunMode.Train).trace = [[]] ∧
    midWrites (step agentA envNone miEmptyPayloads RunMode.Train).trace = [] ∧
    longWrites (step agentA envNone miEmptyPayloads RunMode.Train).trace = [] ∧
    shortWrites (step agentA envNone miFullPayloads RunMode.Train).trace = [[("rate hike")]] ∧
    midWrites (step agentA envNone miFullPayloads RunMode.Train).trace =
      [PyVal.str ("quarterly report")] ∧
    longWrites (step agentA envNone miFullPayloads RunMode.Train).trace =
      [PyVal.str ("annual report")] :=
  ⟨rfl, rfl, rfl, rfl, rfl, rfl⟩

/-- Claim C5 counterexample: an agent configured with lookback window 10
comes back from a save-then-load round trip with lookback window 7, so
the round trip does not preserve all configuration scalars. -/
theorem C5_lookback_not_preserved :
    (load_checkpoint (save_checkpoint_state agentLb10)).look_back_window_size = 7 ∧
    agentLb10.look_back_window_size = 10 :=
  ⟨rfl, rfl⟩

/-- Claim C5 (amended): a checkpoint round trip reproduces the
reflection history, the access counters and the configuration scalars
except the lookback window attribute, which resets to the __init__
default 7 because it is absent from the saved state dictionary; the
subsequent behavior is nonetheless identical -- the same inputs yield
the same trace and error -- because the step path never reads that
attribute. -/
theorem C5_checkpoint_roundtrip (a : AgentState) :
    (load_checkpoint (save_checkpoint_state a)).reflection_result_series_dict =
      a.reflection_result_series_dict ∧
    (load_checkpoint (save_checkpoint_state a)).access_counter = a.access_counter ∧
    (load_checkpoint (save_checkpoint_state a)).counter = a.counter ∧
    (load_checkpoint (save_checkpoint_state a)).top_k = a.top_k ∧
    (load_checkpoint (save_checkpoint_state a)).agent_name = a.agent_name ∧
    (load_checkpoint (save_checkpoint_state a)).trading_symbol = a.trading_symbol ∧
    (load_checkpoint (save_checkpoint_state a)).character_string = a.character_string ∧
    (load_checkpoint (save_checkpoint_state a)).chat_end_point_name = a.chat_end_point_name ∧
    (load_checkpoint (save_checkpoint_state a)).chat_end_point_config = a.chat_end_point_config ∧
    (load_checkpoint (save_checkpoint_state a)).portfolio = a.portfolio ∧
    (load_checkpoint (save_checkpoint_state a)).look_back_window_size = 7 ∧
    ∀ (env : StepEnv) (mi : MarketInfo) (rm : RunMode),
      (step (load_checkpoint (save_checkpoint_state a)) env mi rm).trace =
        (step a env mi rm).trace ∧
      (step (load_checkpoint (save_checkpoint_state a)) env mi rm).error =
        (step a env mi rm).error := by
  rw [load_save_eq]
  refine ⟨rfl, rfl, rfl, rfl, rfl, rfl, rfl, rfl, rfl, rfl, rfl, fun env mi rm => ?_⟩
  have h := step_fields { a with look_back_window_size := 7 } a rfl rfl env mi rm
  exact ⟨h.1, h.2.1⟩

/-- Claim C6 counterexample: a Train step whose feedback reinforces the
recorded short identifier s1 issues the reinforcement call but leaves
the process-local access counter empty: no entry for s1 reflects the
cumulative count 1. -/
theorem C6_counterexample_no_entry_after_reinforcement :
    reinforceCalls (step agentS1 envFb2 miTrain RunMode.Train).trace = [([("s1")], -1)] ∧
    (step agentS1 envFb2 miTrain RunMode.Train).state.access_counter = [] :=
  ⟨rfl, rfl⟩

/-- Claim C6 (amended): the step path never touches the process-local
access counter -- even a step that issues reinforcement calls leaves it
exactly as it was -- while every saved checkpoint includes the mapping
verbatim. -/
theorem C6_access_counter_never_updated (a : AgentState) (env : StepEnv) (mi : MarketInfo)
    (rm : RunMode) :
    (step a env mi rm).state.access_counter = a.access_counter ∧
    (save_checkpoint_state a).access_counter = a.access_counter := by
  refine ⟨?_, rfl⟩
  rcases step_state_shape a env mi rm with h | h <;> rw [h]

/-- Claim C4: a Train-mode step with realized outcome r records exactly
one portfolio action, with direction 1 when r is positive and -1
otherwise and quantity fixed at 1; the recorded action is the same for
every environment, so it does not depend on the reasoning result in any
way. -/
theorem C4_train_action_from_outcome_sign (a : AgentState) (mi : MarketInfo) (r : Int)
    (hdone : mi.done = false) (hrec : mi.cur_record = some r) :
    ∀ env : StepEnv,
      recordedActions (step a env mi RunMode.Train).trace =
        [{ direction := if 0 < r then 1 else -1, quantity := some 1 }] := by
  intro env
  have hrle : reflect_log_error RunMode.Train env.reflection_result = none := by
    simp [reflect_log_error]
  simp only [step, hdone, Bool.false_eq_true, if_false, reflect, hrle, reduceIte, hrec]
  cases hu : update_access_counter
      { a with reflection_result_series_dict :=
          upsertDate a.reflection_result_series_dict mi.cur_date env.reflection_result }
      env.feedback with
  | error e =>
    simp only [recordedActions_append, recordedActions_handling_filings,
      recordedActions_handling_news, recordedActions_reflection_write]
    simp [recordedActions, construct_train_actions]
  | ok t6 =>
    have h6 := recordedActions_update_access_counter _ _ _ hu
    simp only [recordedActions_append, recordedActions_handling_filings,
      recordedActions_handling_news, recordedActions_reflection_write, h6]
    simp [recordedActions, construct_train_actions]

theorem C4_train_action_witness :
    miTrain.done = false ∧ miTrain.cur_record = some 2 ∧
    recordedActions (step agentA envNone miTrain RunMode.Train).trace =
      [{ direction := 1, quantity := some 1 }] :=
  ⟨rfl, rfl, by simpa using C4_train_action_from_outcome_sign agentA miTrain 2 rfl rfl envNone⟩

/-- Claim C7: when no feedback is pending, or the pending feedback has
magnitude exactly zero, the step issues no reinforcement call and
completes without error (given that the rest of the step is healthy:
valid mode, a realized record in Train mode, and a well-formed decision
in Test mode). -/
theorem C7_zero_or_absent_feedback_no_reinforcement (a : AgentState) (env : StepEnv)
    (mi : MarketInfo) (rm : RunMode)
    (hmode : rm = RunMode.Train ∨ rm = RunMode.Test)
    (hfb : env.feedback = none ∨ ∃ f, env.feedback = some f ∧ f.feedback = 0)
    (htrain : rm = RunMode.Train → mi.done = false → mi.cur_record.isSome)
    (htest : rm = RunMode.Test → env.reflection_result.truthy = true →
      env.reflection_result.investment_decision.isSome) :
    reinforceCalls (step a env mi rm).trace = [] ∧ (step a env mi rm).error = none := by
  have hua : ∀ s : AgentState, update_access_counter s env.feedback = Except.ok [] := by
    intro s
    rcases hfb with h | ⟨f, hf, hz⟩
    · simp [h, update_access_counter]
    · simp [hf, update_access_counter, hz]
  rcases hmode with h | h <;> subst h
  · cases hd : mi.done with
    | true => simp [step, hd, reinforceCalls]
    | false =>
      obtain ⟨r, hr⟩ := Option.isSome_iff_exists.mp (htrain rfl hd)
      have hrle : reflect_log_error RunMode.Train env.reflection_result = none := by
        simp [reflect_log_error]
      simp only [step, hd, Bool.false_eq_true, if_false, reflect, hrle, reduceIte, hr, hua]
      refine ⟨?_, trivial⟩
      simp only [reinforceCalls_append, reinforceCalls_handling_filings,
        reinforceCalls_handling_news, reinforceCalls_reflection_write]
      simp [reinforceCalls]
  · cases hd : mi.done with
    | true => simp [step, hd, reinforceCalls]
    | false =>
      have hrle : reflect_log_error RunMode.Test env.reflection_result = none := by
        cases ht : env.reflection_result.truthy with
        | false => simp [reflect_log_error, ht]
        | true =>
          obtain ⟨d, hdq⟩ := Option.isSome_iff_exists.mp (htest rfl ht)
          simp [reflect_log_error, hdq]
      have hpt := process_test_action_eq env.reflection_result (htest rfl)
      simp only [step, hd, Bool.false_eq_true, if_false, reflect, hrle, reduceIte,
        reduceCtorEq, lookupDate_upsertDate_self, hpt, hua]
      refine ⟨?_, trivial⟩
      simp only [reinforceCalls_append, reinforceCalls_handling_filings,
        reinforceCalls_handling_news, reinforceCalls_reflection_write]
      simp [reinforceCalls]

theorem C7_zero_feedback_witness :
    (RunMode.Train = RunMode.Train ∨ RunMode.Train = RunMode.Test) ∧
    (envZero.feedback = none ∨ ∃ f, envZero.feedback = some f ∧ f.feedback = 0) ∧
    (reinforceCalls (step agentA envZero miTrain RunMode.Train).trace = [] ∧
      (step agentA envZero miTrain RunMode.Train).error = none) :=
  ⟨Or.inl rfl, Or.inr ⟨{ date := 1, feedback := 0 }, rfl, rfl⟩,
    C7_zero_or_absent_feedback_no_reinforcement agentA envZero miTrain RunMode.Train
      (Or.inl rfl) (Or.inr ⟨{ date := 1, feedback := 0 }, rfl, rfl⟩)
      (fun _ _ => rfl) (fun h => nomatch h)⟩

/-- Claim C2: nonzero feedback for a date with no stored reflection is a
hard failure: the step raises the KeyError coming from the reflection
dict lookup and issues no reinforcement call to any tier (given that
the earlier phases of the step are healthy).  The absence hypothesis is
stated against the dict as it stands when the reinforcement phase runs,
after the current date was stored by the reflect phase. -/
theorem C2_missing_reflection_is_hard_failure (a : AgentState) (env : StepEnv)
    (mi : MarketInfo) (rm : RunMode) (f : Feedback)
    (hmode : rm = RunMode.Train ∨ rm = RunMode.Test)
    (hdone : mi.done = false)
    (hfb : env.feedback = some f)
    (hmag : f.feedback ≠ 0)
    (hmiss : lookupDate (upsertDate a.reflection_result_series_dict mi.cur_date
        env.reflection_result) f.date = none)
    (htrain : rm = RunMode.Train → mi.cur_record.isSome)
    (htest : rm = RunMode.Test → env.reflection_result.truthy = true →
      env.reflection_result.investment_decision.isSome) :
    (step a env mi rm).error = some (PyError.keyError (toString f.date)) ∧
    reinforceCalls (step a env mi rm).trace = [] := by
  have hua : update_access_counter
      { a with reflection_result_series_dict :=
          upsertDate a.reflection_result_series_dict mi.cur_date env.reflection_result }
      env.feedback = Except.error (PyError.keyError (toString f.date)) := by
    simp [update_access_counter, hfb, hmag, hmiss]
  rcases hmode with h | h <;> subst h
  · obtain ⟨r, hr⟩ := Option.isSome_iff_exists.mp (htrain rfl)
    have hrle : reflect_log_error RunMode.Train env.reflection_result = none := by
      simp [reflect_log_error]
    simp only [step, hdone, Bool.false_eq_true, if_false, reflect, hrle, reduceIte, hr, hua]
    refine ⟨trivial, ?_⟩
    simp only [reinforceCalls_append, reinforceCalls_handling_filings,
      reinforceCalls_handling_news, reinforceCalls_reflection_write]
    simp [reinforceCalls]
  · have hrle : reflect_log_error RunMode.Test env.reflection_result = none := by
      cases ht : env.reflection_result.truthy with
      | false => simp [reflect_log_error, ht]
      | true =>
        obtain ⟨d, hdq⟩ := Option.isSome_iff_exists.mp (htest rfl ht)
        simp [reflect_log_error, hdq]
    have hpt := process_test_action_eq env.reflection_result (htest rfl)
    simp only [step, hdone, Bool.false_eq_true, if_false, reflect, hrle, reduceIte,
      reduceCtorEq, lookupDate_upsertDate_self, hpt, hua]
    refine ⟨trivial, ?_⟩
    simp only [reinforceCalls_append, reinforceCalls_handling_filings,
      reinforceCalls_handling_news, reinforceCalls_reflection_write]
    simp [reinforceCalls]

theorem C2_missing_reflection_witness :
    envFb3.feedback = some { date := 3, feedback := -1 } ∧
    ({ date := 3, feedback := -1 } : Feedback).feedback ≠ 0 ∧
    lookupDate (upsertDate agentA.reflection_result_series_dict miTrain.cur_date
      envFb3.reflection_result) 3 = none ∧
    ((step agentA envFb3 miTrain RunMode.Train).error =
        some (PyError.keyError (toString (3 : Nat))) ∧
      reinforceCalls (step agentA envFb3 miTrain RunMode.Train).trace = []) :=
  ⟨rfl, by decide, rfl,
    C2_missing_reflection_is_hard_failure agentA envFb3 miTrain RunMode.Train
      { date := 3, feedback := -1 } (Or.inl rfl) rfl rfl (by decide) rfl
      (fun _ => rfl) (fun h => nomatch h)⟩

/-- Claim C3 counterexample: a nonempty reflection result that carries a
rationale but no investment_decision key makes the Test-mode step fail
with a KeyError and record no action, contradicting the claim that a
missing decision label never causes the step to fail. -/
theorem C3_counterexample_missing_label_fails :
    resultNoLabel.truthy = true ∧ resultNoLabel.investment_decision = none ∧
    (step agentA envNoLabel miTrain RunMode.Test).error =
      some (PyError.keyError ("investment_decision")) ∧
    recordedActions (step agentA envNoLabel miTrain RunMode.Test).trace = [] :=
  ⟨rfl, rfl, rfl, rfl⟩

/-- Claim C3 (amended): in a Test-mode step the recorded action has
direction 1 for a buy label, 0 for hold, -1 for sell, 0 for an
unrecognized label and 0 for an absent or empty (falsy) result; but a
nonempty result that lacks the decision key makes the step raise
KeyError with no action recorded, instead of defaulting to neutral. -/
theorem C3_test_action_direction (a : AgentState) (env : StepEnv) (mi : MarketInfo)
    (hdone : mi.done = false) :
    ((env.reflection_result.truthy = true → env.reflection_result.investment_decision.isSome) →
      recordedActions (step a env mi RunMode.Test).trace =
        [{ direction := decisionDirection env.reflection_result, quantity := none }]) ∧
    (env.reflection_result.truthy = true → env.reflection_result.investment_decision = none →
      (step a env mi RunMode.Test).error = some (PyError.keyError ("investment_decision")) ∧
      recordedActions (step a env mi RunMode.Test).trace = []) := by
  constructor
  · intro hok
    have hrle : reflect_log_error RunMode.Test env.reflection_result = none := by
      cases ht : env.reflection_result.truthy with
      | false => simp [reflect_log_error, ht]
      | true =>
        obtain ⟨d, hdq⟩ := Option.isSome_iff_exists.mp (hok ht)
        simp [reflect_log_error, hdq]
    have hpt := process_test_action_eq env.reflection_result hok
    simp only [step, hdone, Bool.false_eq_true, if_false, reflect, hrle, reduceIte,
      reduceCtorEq, lookupDate_upsertDate_self, hpt]
    cases hu : update_access_counter
        { a with reflection_result_series_dict :=
            upsertDate a.reflection_result_series_dict mi.cur_date env.reflection_result }
        env.feedback with
    | error e =>
      simp only [recordedActions_append, recordedActions_handling_filings,
        recordedActions_handling_news, recordedActions_reflection_write]
      simp [recordedActions]
    | ok t6 =>
      have h6 := recordedActions_update_access_counter _ _ _ hu
      simp only [recordedActions_append, recordedActions_handling_filings,
        recordedActions_handling_news, recordedActions_reflection_write, h6]
      simp [recordedActions]
  · intro ht hdq
    have hrle : reflect_log_error RunMode.Test env.reflection_result =
        some (PyError.keyError ("investment_decision")) := by
      simp [reflect_log_error, ht, hdq]
    simp only [step, hdone, Bool.false_eq_true, if_false, reflect, hrle]
    refine ⟨trivial, ?_⟩
    simp only [recordedActions_append, recordedActions_handling_filings,
      recordedActions_handling_news, recordedActions_reflection_write]
    simp [recordedActions]

theorem C3_test_action_direction_witness :
    miTrain.done = false ∧
    (((envBuy.reflection_result.truthy = true →
        envBuy.reflection_result.investment_decision.isSome) →
      recordedActions (step agentA envBuy miTrain RunMode.Test).trace =
        [{ direction := decisionDirection envBuy.reflection_result, quantity := none }]) ∧
     (envBuy.reflection_result.truthy = true →
        envBuy.reflection_result.investment_decision = none →
      (step agentA envBuy miTrain RunMode.Test).error =
        some (PyError.keyError ("investment_decision")) ∧
      recordedActions (step agentA envBuy miTrain RunMode.Test).trace = [])) :=
  ⟨rfl, C3_test_action_direction agentA envBuy miTrain rfl⟩

/-- Claim C1 counterexample: a stored record whose short-tier key is
present with an empty entry list has no consulted identifiers for any
tier, yet consuming nonzero feedback for that date issues a
reinforcement call with an empty identifier set instead of skipping the
tier. -/
theorem C1_counterexample_empty_tier_is_called :
    resultEmptyShort.short_memory_index = some [] ∧
    update_access_counter agentEmptyShort (some { date := 5, feedback := 1 }) =
      Except.ok [Effect.update_access_count_with_feed_back ("AAPL") [] 1] :=
  ⟨rfl, rfl⟩

/-- Claim C1 (amended): consuming nonzero feedback for a recorded date
issues exactly one reinforcement call for each tier whose identifier key
is present in the stored record -- a tier with an absent key contributes
no call -- and each call carries the deduplicated identifiers of its
tier (no duplicates, same membership as the recorded entries) together
with the feedback magnitude.  A tier key present with an empty entry
list still produces a call, with an empty identifier set. -/
theorem C1_one_reinforcement_call_per_present_tier (a : AgentState) (f : Feedback)
    (m : ReflectionResult)
    (hmag : f.feedback ≠ 0)
    (hlook : lookupDate a.reflection_result_series_dict f.date = some m) :
    ∃ tr, update_access_counter a (some f) = Except.ok tr ∧
      (reinforceCalls tr).length =
        ((if m.short_memory_index.isSome then 1 else 0) +
         (if m.middle_memory_index.isSome then 1 else 0) +
         (if m.long_memory_index.isSome then 1 else 0) +
         (if m.reflection_memory_index.isSome then 1 else 0)) ∧
      (∀ p ∈ reinforceCalls tr, p.2 = f.feedback ∧ p.1.Nodup) ∧
      (∀ es, m.short_memory_index = some es →
        (collect_ids es, f.feedback) ∈ reinforceCalls tr ∧
        ∀ x, x ∈ collect_ids es ↔ x ∈ es.map MemEntry.memory_index) ∧
      (∀ es, m.middle_memory_index = some es →
        (collect_ids es, f.feedback) ∈ reinforceCalls tr ∧
        ∀ x, x ∈ collect_ids es ↔ x ∈ es.map MemEntry.memory_index) ∧
      (∀ es, m.long_memory_index = some es →
        (collect_ids es, f.feedback) ∈ reinforceCalls tr ∧
        ∀ x, x ∈ collect_ids es ↔ x ∈ es.map MemEntry.memory_index) ∧
      (∀ es, m.reflection_memory_index = some es →
        (collect_ids es, f.feedback) ∈ reinforceCalls tr ∧
        ∀ x, x ∈ collect_ids es ↔ x ∈ es.map MemEntry.memory_index) := by
  have he : update_access_counter a (some f) = Except.ok
      (update_short_memory_access_counter a f m ++ update_mid_memory_access_counter a f m ++
       update_long_memory_access_counter a f m ++
       update_reflection_memory_access_counter a f m) := by
    simp [update_access_counter, hmag, hlook]
  refine ⟨_, he, ?_, ?_, ?_, ?_, ?_, ?_⟩ <;>
    simp only [reinforceCalls_append, reinforceCalls_update_short, reinforceCalls_update_mid,
      reinforceCalls_update_long, reinforceCalls_update_reflection] <;>
    rcases hs : m.short_memory_index with _ | es1 <;>
    rcases hmi : m.middle_memory_index with _ | es2 <;>
    rcases hl : m.long_memory_index with _ | es3 <;>
    rcases hr : m.reflection_memory_index with _ | es4 <;>
    simp [hs, hmi, hl, hr, collect_ids_nodup, collect_ids_mem]

theorem C1_reinforcement_witness :
    ({ date := 5, feedback := -1 } : Feedback).feedback ≠ 0 ∧
    lookupDate agentDup.reflection_result_series_dict 5 = some resultDup ∧
    (∃ tr, update_access_counter agentDup (some { date := 5, feedback := -1 }) = Except.ok tr ∧
      (reinforceCalls tr).length =
        ((if resultDup.short_memory_index.isSome then 1 else 0) +
         (if resultDup.middle_memory_index.isSome then 1 else 0) +
         (if resultDup.long_memory_index.isSome then 1 else 0) +
         (if resultDup.reflection_memory_index.isSome then 1 else 0)) ∧
      (∀ p ∈ reinforceCalls tr, p.2 = ({ date := 5, feedback := -1 } : Feedback).feedback ∧
        p.1.Nodup) ∧
      (∀ es, resultDup.short_memory_index = some es →
        (collect_ids es, ({ date := 5, feedback := -1 } : Feedback).feedback) ∈
          reinforceCalls tr ∧
        ∀ x, x ∈ collect_ids es ↔ x ∈ es.map MemEntry.memory_index) ∧
      (∀ es, resultDup.middle_memory_index = some es →
        (collect_ids es, ({ date := 5, feedback := -1 } : Feedback).feedback) ∈
          reinforceCalls tr ∧
        ∀ x, x ∈ collect_ids es ↔ x ∈ es.map MemEntry.memory_index) ∧
      (∀ es, resultDup.long_memory_index = some es →
        (collect_ids es, ({ date := 5, feedback := -1 } : Feedback).feedback) ∈
          reinforceCalls tr ∧
        ∀ x, x ∈ collect_ids es ↔ x ∈ es.map MemEntry.memory_index) ∧
      (∀ es, resultDup.reflection_memory_index = some es →
        (collect_ids es, ({ date := 5, feedback := -1 } : Feedback).feedback) ∈
          reinforceCalls tr ∧
        ∀ x, x ∈ collect_ids es ↔ x ∈ es.map MemEntry.memory_index)) :=
  ⟨by decide, rfl,
    C1_one_reinforcement_call_per_present_tier agentDup { date := 5, feedback := -1 }
      resultDup (by decide) rfl⟩

end Puppy
